import Mathlib

/-!
Verification development for the `chatbot` repository
(`src/Chatbot.jsx`, `src/TawkChatbot.jsx`, `src/VeeyaaChatbot.jsx`).

The JavaScript source is shallowly embedded: JavaScript strings become
`String` (with their character data as `List Char`), the browser's global
mutable state (`window.Tawk_API`, `window.Tawk_LoadStart`, registered
listeners, injected scripts) becomes an explicit record threaded through
the operations, React state updates become pure state transformers, and
`setTimeout`/`setInterval` callbacks become explicit pending-timer data
fired by an explicit step.
-/

namespace Chatbot

/-! ## JavaScript string primitives

The source uses `String.prototype.startsWith`, `String.prototype.includes`,
`String.prototype.trim`, the regular expression `/\(\d+\)/`, and string
truthiness (`msg && ...`).  Each is embedded over the character list of a
Lean `String`. -/

/-- Embeds `s.startsWith(pre)` : `pre` is a character-for-character
(case-sensitive, literal) leading segment of `s`. -/
def startsWithList : List Char → List Char → Bool
  | _, [] => true
  | [], _ :: _ => false
  | c :: cs, d :: ds => c == d && startsWithList cs ds

/-- Embeds `s.includes(sub)` : `sub` occurs contiguously somewhere in `s`. -/
def includesList : List Char → List Char → Bool
  | [], sub => startsWithList [] sub
  | s@(_ :: tail), sub => startsWithList s sub || includesList tail sub

/-- Embeds `s.startsWith(pre)` on Lean strings. -/
def jsStartsWith (s pre : String) : Bool :=
  startsWithList s.data pre.data

/-- Embeds `s.includes(sub)` on Lean strings. -/
def jsIncludes (s sub : String) : Bool :=
  includesList s.data sub.data

/-- The white-space set of JavaScript `String.prototype.trim`
(ECMAScript WhiteSpace and LineTerminator code points). -/
def jsIsWhitespace (c : Char) : Bool :=
  c = ' ' || c = '\t' || c = '\n' || c = '\r' ||
  c = '\u000B' || c = '\u000C' || c = '\u00A0' ||
  c = '\u2028' || c = '\u2029' || c = '\uFEFF'

/-- Embeds `s.trim()` : drops leading and trailing white space. -/
def jsTrimList (l : List Char) : List Char :=
  ((l.dropWhile jsIsWhitespace).reverse.dropWhile jsIsWhitespace).reverse

/-- Embeds `s.trim()` on Lean strings. -/
def jsTrim (s : String) : String :=
  ⟨jsTrimList s.data⟩

/-- Embeds JavaScript truthiness of a string value (`""` is falsy). -/
def jsTruthy (s : String) : Bool :=
  !s.data.isEmpty

/-! Specification-level (propositional) counterparts of the string
primitives, used to state the claims independently of the executable
embedding. -/

/-- The character list `pre` is a literal leading segment of `s`. -/
def isLeadingSegOf (pre s : List Char) : Prop :=
  ∃ t, pre ++ t = s

/-- The string `sub` occurs contiguously inside the string `s`. -/
def isSubstringOf (sub s : String) : Prop :=
  ∃ l r, l ++ sub.data ++ r = s.data

theorem startsWithList_iff (s pre : List Char) :
    startsWithList s pre = true ↔ isLeadingSegOf pre s := by
  induction pre generalizing s with
  | nil =>
    simp [startsWithList, isLeadingSegOf]
  | cons d ds ih =>
    cases s with
    | nil =>
      simp [startsWithList, isLeadingSegOf]
    | cons c cs =>
      simp only [startsWithList, Bool.and_eq_true, beq_iff_eq, ih,
        isLeadingSegOf]
      constructor
      · rintro ⟨rfl, t, rfl⟩
        exact ⟨t, rfl⟩
      · rintro ⟨t, h⟩
        cases h
        exact ⟨rfl, t, rfl⟩

theorem includesList_iff (s sub : List Char) :
    includesList s sub = true ↔ ∃ l r, l ++ sub ++ r = s := by
  induction s with
  | nil =>
    simp only [includesList, startsWithList_iff, isLeadingSegOf]
    constructor
    · rintro ⟨t, h⟩
      exact ⟨[], t, h⟩
    · rintro ⟨l, r, h⟩
      rcases List.append_eq_nil.mp h with ⟨h1, h2⟩
      rcases List.append_eq_nil.mp h1 with ⟨h3, h4⟩
      exact ⟨[], by simp [h4]⟩
  | cons c cs ih =>
    simp only [includesList, Bool.or_eq_true, startsWithList_iff,
      isLeadingSegOf, ih]
    constructor
    · rintro (⟨t, h⟩ | ⟨l, r, h⟩)
      · exact ⟨[], t, h⟩
      · exact ⟨c :: l, r, by simp [h]⟩
    · rintro ⟨l, r, h⟩
      cases l with
      | nil =>
        exact Or.inl ⟨r, by simpa using h⟩
      | cons x xs =>
        obtain ⟨rfl, h2⟩ : x = c ∧ xs ++ sub ++ r = cs := by
          simpa using h
        exact Or.inr ⟨xs, r, h2⟩

theorem jsIncludes_iff (s sub : String) :
    jsIncludes s sub = true ↔ isSubstringOf sub s := by
  simpa [jsIncludes, isSubstringOf] using includesList_iff s.data sub.data

theorem jsStartsWith_iff (s pre : String) :
    jsStartsWith s pre = true ↔ isLeadingSegOf pre.data s.data :=
  startsWithList_iff s.data pre.data

/-! ## RouteVisibilityPolicy

`TawkChatbot.jsx` line 31 and `VeeyaaChatbot.jsx` line 35, identically:
`const shouldHide = hideOnRoutes.some(route => location.pathname.startsWith(route));` -/

/-- Embeds the route visibility predicate of both components. -/
def shouldHide (pathname : String) (hideOnRoutes : List String) : Bool :=
  hideOnRoutes.any (fun route => jsStartsWith pathname route)

theorem shouldHide_iff (pathname : String) (hideOnRoutes : List String) :
    shouldHide pathname hideOnRoutes = true ↔
      ∃ route ∈ hideOnRoutes, isLeadingSegOf route.data pathname.data := by
  simp only [shouldHide, List.any_eq_true, jsStartsWith_iff]

/-- Claim C1 theorem.  The route visibility predicate returns hidden exactly
when some configured route string is a literal, case-sensitive
string-prefix of the current path; an empty route set never hides; an
empty path matches no non-empty route string. -/
theorem c1_route_visibility (pathname : String) (hideOnRoutes : List String) :
    (shouldHide pathname hideOnRoutes = true ↔
       ∃ route ∈ hideOnRoutes, isLeadingSegOf route.data pathname.data)
    ∧ shouldHide pathname ([] : List String) = false
    ∧ ((∀ route ∈ hideOnRoutes, route ≠ "") →
         shouldHide "" hideOnRoutes = false) := by
  refine ⟨shouldHide_iff pathname hideOnRoutes, rfl, ?_⟩
  intro hne
  rw [Bool.eq_false_iff]
  intro h
  rcases (shouldHide_iff "" hideOnRoutes).mp h with ⟨route, hmem, t, ht⟩
  have hdata : route.data = [] := by
    have := List.append_eq_nil.mp ht
    exact this.1
  exact hne route hmem (String.ext (by simpa using hdata))

/-- Witness for C1 at concrete inputs. -/
theorem c1_route_visibility_witness :
    shouldHide "/customer/orders" ["/customer"] = true
    ∧ shouldHide "" ["/customer", "/admin"] = false := by
  refine ⟨?_, ?_⟩
  · exact (c1_route_visibility "/customer/orders" ["/customer"]).1.mpr
      ⟨"/customer", by simp, "/orders".data, by decide⟩
  · exact (c1_route_visibility "x" ["/customer", "/admin"]).2.2
      (by intro r hr; fin_cases hr <;> decide)

/-- Claim C10 theorem.  If the configured route set contains the empty
string, the visibility predicate returns hidden for every current path,
including the empty one. -/
theorem c10_empty_route_hides_everywhere (pathname : String)
    (hideOnRoutes : List String) (h : "" ∈ hideOnRoutes) :
    shouldHide pathname hideOnRoutes = true :=
  (shouldHide_iff pathname hideOnRoutes).mpr
    ⟨"", h, ⟨pathname.data, rfl⟩⟩

/-- Witness for C10: the empty route string hides both a normal path and
the empty path. -/
theorem c10_empty_route_hides_everywhere_witness :
    shouldHide "/about" ["", "/customer"] = true
    ∧ shouldHide "" [""] = true :=
  ⟨c10_empty_route_hides_everywhere "/about" ["", "/customer"] (by decide),
   c10_empty_route_hides_everywhere "" [""] (by decide)⟩

/-! ## ErrorContainmentLayer: deny-list tests

`setupErrorHandling` in `TawkChatbot.jsx` (lines 154-211) wraps
`window.onerror`, registers a capturing `error` listener, registers an
`unhandledrejection` listener, and wraps `window.Tawk_API` in a `Proxy`. -/

/-- Embeds the deny-list test of the `window.onerror` wrapper
(`TawkChatbot.jsx` lines 158-160) and, identically, of the capturing
`error`-event listener (lines 172-174, with `e.message`/`e.filename` in
place of `msg`/`url`): a truthy message containing `Tawk`, `i18next`,
`$_Tawk` or `is not a function`, or a truthy url containing `tawk`. -/
def syncDenyMatch (msg url : String) : Bool :=
  (jsTruthy msg && (jsIncludes msg "Tawk" || jsIncludes msg "i18next" ||
      jsIncludes msg "$_Tawk" || jsIncludes msg "is not a function")) ||
  (jsTruthy url && jsIncludes url "tawk")

/-- Result of invoking the pre-existing `window.onerror` handler; when no
handler was installed the wrapper falls through to `return false`
(lines 164-167). -/
def applyOriginal (original : Option (String → String → Bool))
    (msg url : String) : Bool :=
  match original with
  | some f => f msg url
  | none => false

/-- Embeds the wrapped `window.onerror` installed by `setupErrorHandling`
(lines 157-168): report handled on a deny-list match, otherwise defer to
the original handler. -/
def wrapOnerror (original : Option (String → String → Bool))
    (msg url : String) : Bool :=
  if syncDenyMatch msg url then true else applyOriginal original msg url

/-- The deny-list condition of the synchronous handlers, stated over the
substring-occurrence relation. -/
def onerrorDenySpec (msg url : String) : Prop :=
  (isSubstringOf "Tawk" msg ∨ isSubstringOf "i18next" msg ∨
   isSubstringOf "$_Tawk" msg ∨ isSubstringOf "is not a function" msg) ∨
  isSubstringOf "tawk" url

theorem jsTruthy_of_includes {s sub : String} (hsub : sub.data ≠ [])
    (h : jsIncludes s sub = true) : jsTruthy s = true := by
  rcases (jsIncludes_iff s sub).mp h with ⟨l, r, hl⟩
  unfold jsTruthy
  cases hs : s.data with
  | nil =>
    rw [hs] at hl
    rcases List.append_eq_nil.mp hl with ⟨h1, _⟩
    rcases List.append_eq_nil.mp h1 with ⟨_, h2⟩
    exact absurd h2 hsub
  | cons _ _ => rfl

theorem truthy_and_includes (s sub : String) (hsub : sub.data ≠ []) :
    (jsTruthy s && jsIncludes s sub) = jsIncludes s sub := by
  cases h : jsIncludes s sub
  · simp
  · simp [jsTruthy_of_includes hsub h]

theorem syncDenyMatch_iff (msg url : String) :
    syncDenyMatch msg url = true ↔ onerrorDenySpec msg url := by
  unfold syncDenyMatch onerrorDenySpec
  rw [Bool.and_or_distrib_left, Bool.and_or_distrib_left,
    Bool.and_or_distrib_left,
    truthy_and_includes msg "Tawk" (by decide),
    truthy_and_includes msg "i18next" (by decide),
    truthy_and_includes msg "$_Tawk" (by decide),
    truthy_and_includes msg "is not a function" (by decide),
    truthy_and_includes url "tawk" (by decide)]
  simp [jsIncludes_iff, or_assoc]

/-- Claim C3 theorem.  A global error whose message contains one of the
four deny-list markers, or whose resource url contains the provider host
marker, is reported handled by the wrapped synchronous handler; any other
error is passed to the original pre-existing handler with the wrapper
returning exactly the original handler's result (never suppressed by the
wrapper itself). -/
theorem c3_onerror_selectivity (original : Option (String → String → Bool))
    (msg url : String) :
    (onerrorDenySpec msg url → wrapOnerror original msg url = true)
    ∧ (¬ onerrorDenySpec msg url →
        wrapOnerror original msg url = applyOriginal original msg url) := by
  constructor
  · intro h
    unfold wrapOnerror
    rw [(syncDenyMatch_iff msg url).mpr h]
    rfl
  · intro h
    unfold wrapOnerror
    cases hm : syncDenyMatch msg url
    · rfl
    · exact absurd ((syncDenyMatch_iff msg url).mp hm) h

/-- Witness for C3: a provider error is suppressed even when the original
handler would ignore it; an unrelated error is handed to the original
handler unchanged. -/
theorem c3_onerror_selectivity_witness :
    wrapOnerror (some (fun _ _ => false)) "Tawk is undefined" "" = true
    ∧ wrapOnerror (some (fun _ _ => true)) "boom" "app.js" =
        applyOriginal (some (fun _ _ => true)) "boom" "app.js" := by
  constructor
  · exact (c3_onerror_selectivity (some (fun _ _ => false))
      "Tawk is undefined" "").1
      (Or.inl (Or.inl ⟨[], " is undefined".data, by decide⟩))
  · refine (c3_onerror_selectivity (some (fun _ _ => true)) "boom" "app.js").2 ?_
    intro h
    have := (syncDenyMatch_iff "boom" "app.js").mpr h
    rw [(by decide : syncDenyMatch "boom" "app.js" = false)] at this
    exact Bool.false_ne_true this

/-! ## The unhandled-rejection listener (C8)

`TawkChatbot.jsx` lines 183-191: the test is
`e.reason && (e.reason.message && (… 'Tawk' … 'i18next' … '$_Tawk' …) ||
(e.reason.stack && e.reason.stack.includes('tawk')))`. -/

/-- Embeds the `unhandledrejection` listener's deny-list test
(lines 184-186).  An absent `reason.message` / `reason.stack` is embedded
as the empty (falsy) string. -/
def rejectionDenyMatch (hasReason : Bool) (msg stack : String) : Bool :=
  hasReason &&
    ((jsTruthy msg && (jsIncludes msg "Tawk" || jsIncludes msg "i18next" ||
        jsIncludes msg "$_Tawk")) ||
     (jsTruthy stack && jsIncludes stack "tawk"))

/-- Modelled from the claim's words, for comparison with the code: the
same four-marker deny-list test as the synchronous handlers, applied to
both the rejection's message and its stack. -/
def claimedRejectionMatch (msg stack : String) : Bool :=
  ["Tawk", "i18next", "$_Tawk", "is not a function"].any
    (fun m => jsIncludes msg m || jsIncludes stack m)

/-- Counterexample for C8 as stated: a rejection whose message contains
the generic `is not a function` phrase (and no other marker, with an
empty stack) satisfies the claimed four-marker test but is not marked
handled by the code's rejection listener. -/
theorem c8_rejection_same_denylist_counterexample :
    claimedRejectionMatch "handler is not a function" "" = true
    ∧ rejectionDenyMatch true "handler is not a function" "" = false := by
  decide

/-- Claim C8 theorem (amended).  The rejection listener marks a rejection
handled exactly when it carries a truthy reason and either the reason's
message contains `Tawk`, `i18next` or `$_Tawk`, or the reason's stack
contains the lowercase host marker `tawk`; unlike the synchronous
handlers it does not test the `is not a function` phrase. -/
theorem c8_rejection_denylist (hasReason : Bool) (msg stack : String) :
    rejectionDenyMatch hasReason msg stack = true ↔
      hasReason = true ∧
        ((isSubstringOf "Tawk" msg ∨ isSubstringOf "i18next" msg ∨
          isSubstringOf "$_Tawk" msg) ∨ isSubstringOf "tawk" stack) := by
  unfold rejectionDenyMatch
  simp only [Bool.and_or_distrib_left]
  rw [truthy_and_includes msg "Tawk" (by decide),
    truthy_and_includes msg "i18next" (by decide),
    truthy_and_includes msg "$_Tawk" (by decide),
    truthy_and_includes stack "tawk" (by decide)]
  simp only [Bool.or_eq_true, Bool.and_eq_true, jsIncludes_iff]
  tauto

/-! ## ExternalWidgetController: process-wide load sequence (C2, C7)

The mount effect of `TawkChatbot.jsx` (lines 82-125) guards the whole
load sequence by `!window.Tawk_API || !window.Tawk_LoadStart`.  The
browser globals and the process-wide registrations of
`setupErrorHandling` are embedded as an explicit record. -/

/-- The process-wide browser state touched by the controller:
`window.Tawk_API` / `window.Tawk_LoadStart` truthiness, the `src` of each
injected script element, how many times `window.Tawk_LoadStart` was
assigned, and the registrations performed by `setupErrorHandling`. -/
structure TawkWorld where
  tawkAPI : Bool
  loadStart : Bool
  injectedScripts : List String
  loadStartSets : Nat
  installCount : Nat
  onerrorWraps : Nat
  errorListeners : Nat
  rejectionListeners : Nat
  deriving Repr, DecidableEq

/-- A fresh process: no globals set, nothing injected or registered. -/
def freshTawkWorld : TawkWorld :=
  ⟨false, false, [], 0, 0, 0, 0, 0⟩

/-- Embeds the process-wide registrations of `setupErrorHandling`
(lines 154-211): wrap `window.onerror` once more around the current
handler, register one more capturing `error` listener and one more
`unhandledrejection` listener, and replace `window.Tawk_API` by a `Proxy`
(leaving it set).  The function body contains no reentry guard. -/
def setupErrorHandling (w : TawkWorld) : TawkWorld :=
  { w with
    onerrorWraps := w.onerrorWraps + 1,
    errorListeners := w.errorListeners + 1,
    rejectionListeners := w.rejectionListeners + 1,
    installCount := w.installCount + 1,
    tawkAPI := true }

/-- Embeds line 94: the injected script resource url. -/
def scriptSrc (propertyId widgetId : String) : String :=
  "https://embed.tawk.to/" ++ propertyId ++ "/" ++ widgetId

/-- Embeds the guarded load sequence of the mount effect (lines 82-125):
when `window.Tawk_API` or `window.Tawk_LoadStart` is unset, install error
handling (if enabled), set both globals, and inject the provider script;
otherwise only a show/hide settle timer is scheduled (not a load side
effect) and the modelled state is untouched. -/
def loadSequence (enableErrorHandling : Bool) (propertyId widgetId : String)
    (w : TawkWorld) : TawkWorld :=
  if !w.tawkAPI || !w.loadStart then
    let w1 := if enableErrorHandling then setupErrorHandling w else w
    { w1 with
      tawkAPI := true,
      loadStart := true,
      loadStartSets := w1.loadStartSets + 1,
      injectedScripts := w1.injectedScripts ++ [scriptSrc propertyId widgetId] }
  else w

/-- Every registered capturing `error` listener is the same closure
running the deny-list test of lines 172-174, so a matching error event is
warned about once per registered listener. -/
def denyEventWarnCount (w : TawkWorld) (msg filename : String) : Nat :=
  if syncDenyMatch msg filename then w.errorListeners else 0

/-- Claim C2 theorem.  From a fresh process, running the load sequence a
second time — with any identifiers and any error-handling flag — changes
nothing: exactly one script is injected and `window.Tawk_LoadStart` is
assigned exactly once, both by the first run. -/
theorem c2_load_sequence_idempotent (eh1 eh2 : Bool)
    (pid1 wid1 pid2 wid2 : String) :
    loadSequence eh2 pid2 wid2 (loadSequence eh1 pid1 wid1 freshTawkWorld) =
      loadSequence eh1 pid1 wid1 freshTawkWorld
    ∧ (loadSequence eh1 pid1 wid1 freshTawkWorld).injectedScripts =
        [scriptSrc pid1 wid1]
    ∧ (loadSequence eh1 pid1 wid1 freshTawkWorld).loadStartSets = 1 := by
  cases eh1 <;> cases eh2 <;>
    simp [loadSequence, setupErrorHandling, freshTawkWorld]

/-- Counterexample for C7 as stated: `setupErrorHandling` has no reentry
guard, so invoking it twice wraps `window.onerror` twice and registers
two `error` and two `unhandledrejection` listeners — a deny-listed error
event is then logged twice, once per listener. -/
theorem c7_install_twice_counterexample :
    (setupErrorHandling (setupErrorHandling freshTawkWorld)).onerrorWraps = 2
    ∧ (setupErrorHandling (setupErrorHandling freshTawkWorld)).errorListeners = 2
    ∧ (setupErrorHandling (setupErrorHandling freshTawkWorld)).rejectionListeners = 2
    ∧ denyEventWarnCount (setupErrorHandling (setupErrorHandling freshTawkWorld))
        "Tawk widget error" "" = 2 := by
  decide

/-- Claim C7 theorem (amended).  Each invocation of `setupErrorHandling`
re-wraps the global handler and registers an additional error and
rejection listener (it is not internally idempotent); the containment
layer is nevertheless installed at most once per process, because the
component invokes it only inside the load sequence, whose process-wide
marker guard runs it solely on the first mount. -/
theorem c7_install_once_via_load_guard (pid1 wid1 pid2 wid2 : String)
    (w : TawkWorld) :
    (loadSequence true pid2 wid2
        (loadSequence true pid1 wid1 freshTawkWorld)).installCount = 1
    ∧ (setupErrorHandling w).onerrorWraps = w.onerrorWraps + 1
    ∧ (setupErrorHandling w).errorListeners = w.errorListeners + 1
    ∧ (setupErrorHandling w).rejectionListeners = w.rejectionListeners + 1 := by
  refine ⟨?_, rfl, rfl, rfl⟩
  simp [loadSequence, setupErrorHandling, freshTawkWorld]

/-! ## ConversationEngine (`VeeyaaChatbot.jsx`)

State: `messages`, `inputValue`, `isTyping` (lines 28-30).  Timestamps
(`new Date()`) are embedded as abstract instants (`Nat`), supplied by the
caller of each step. -/

/-- Message sender, `'user'` or `'bot'`. -/
inductive Sender
  | user
  | bot
  deriving Repr, DecidableEq

/-- Embeds the message objects of lines 53-59, 67-72 and 85-90. -/
structure Message where
  id : Nat
  text : String
  sender : Sender
  timestamp : Nat
  deriving Repr, DecidableEq

/-- The engine's React state triple. -/
structure ChatState where
  messages : List Message
  inputValue : String
  isTyping : Bool
  deriving Repr, DecidableEq

/-- The canned bot reply text of line 87. -/
def botReplyText : String :=
  "Thank you for your message! Our team will get back to you soon."

/-- The simulated reply scheduled by `handleSendMessage` via `setTimeout`
(line 84): it fires after `delayMs` milliseconds and appends a bot
message whose id was computed from the message count captured at send
time. -/
structure ReplyTimer where
  delayMs : Nat
  botId : Nat
  deriving Repr, DecidableEq

/-- Embeds the `setTimeout` callback body (lines 85-92): append the
canned bot message and clear `isTyping`. -/
def fireReplyTimer (t : ReplyTimer) (fireTime : Nat) (st : ChatState) :
    ChatState :=
  { st with
    messages := st.messages ++ [⟨t.botId, botReplyText, Sender.bot, fireTime⟩],
    isTyping := false }

/-- The synchronous outcome of one `handleSendMessage` call: the new
state, the `onMessage` sink invocations performed, and the reply timers
scheduled. -/
structure SendResult where
  state : ChatState
  sinkCalls : List String
  scheduled : List ReplyTimer
  deriving Repr, DecidableEq

/-- Embeds `handleSendMessage` (lines 64-94).  Guard: return immediately
when the trimmed draft is falsy (empty) or a reply is outstanding.
Otherwise append the user message with the trimmed text, clear the
draft, set `isTyping`, invoke the sink (when supplied) with the trimmed
text, and schedule the 1000 ms reply timer. -/
def handleSendMessage (hasOnMessage : Bool) (now : Nat) (st : ChatState) :
    SendResult :=
  if !jsTruthy (jsTrim st.inputValue) || st.isTyping then
    ⟨st, [], []⟩
  else
    let text := jsTrim st.inputValue
    ⟨⟨st.messages ++ [⟨st.messages.length + 1, text, Sender.user, now⟩],
      "", true⟩,
     if hasOnMessage then [text] else [],
     [⟨1000, st.messages.length + 2⟩]⟩

theorem dropWhile_all {α : Type} (p : α → Bool) (l : List α) :
    (l.dropWhile p).all p = l.all p := by
  induction l with
  | nil => rfl
  | cons h t ih =>
    by_cases hp : p h = true
    · simp [List.dropWhile_cons, hp, ih]
    · simp [List.dropWhile_cons, hp]

theorem jsTrimList_eq_nil_iff (l : List Char) :
    jsTrimList l = [] ↔ l.all jsIsWhitespace = true := by
  unfold jsTrimList
  rw [List.reverse_eq_nil_iff, List.dropWhile_eq_nil_iff,
    ← List.all_eq_true, List.all_reverse, dropWhile_all]

/-- Claim C4 theorem.  When the draft consists only of white space (so it
trims to the falsy empty string) — in particular when it is empty — or a
reply is already outstanding, `handleSendMessage` is a no-op: the state
is returned unchanged, the sink is not invoked and no timer is
scheduled. -/
theorem c4_send_guard_noop (hasOnMessage : Bool) (now : Nat) (st : ChatState)
    (h : st.inputValue.data.all jsIsWhitespace = true ∨ st.isTyping = true) :
    handleSendMessage hasOnMessage now st = ⟨st, [], []⟩ := by
  unfold handleSendMessage
  rcases h with h | h
  · have hnil : jsTrimList st.inputValue.data = [] :=
      (jsTrimList_eq_nil_iff st.inputValue.data).mpr h
    simp [jsTrim, jsTruthy, hnil]
  · simp [h]

/-- Witness for C4: a whitespace-only draft and a busy engine are both
left untouched. -/
theorem c4_send_guard_noop_witness :
    handleSendMessage true 5 ⟨[], "  \t ", false⟩ = ⟨⟨[], "  \t ", false⟩, [], []⟩
    ∧ handleSendMessage true 5 ⟨[], "Hi", true⟩ = ⟨⟨[], "Hi", true⟩, [], []⟩ :=
  ⟨c4_send_guard_noop true 5 ⟨[], "  \t ", false⟩ (Or.inl (by decide)),
   c4_send_guard_noop true 5 ⟨[], "Hi", true⟩ (Or.inr rfl)⟩

/-- Claim C5 theorem.  A send with a non-empty trimmed draft while no
reply is outstanding appends the user message carrying the trimmed text
immediately, clears the draft, sets `isTyping`, invokes the sink (when
supplied) synchronously with the trimmed text, and schedules exactly the
1000 ms reply timer, whose later firing appends the canned bot message
and clears `isTyping`. -/
theorem c5_send_success (hasOnMessage : Bool) (now fireTime : Nat)
    (st : ChatState) (hne : jsTruthy (jsTrim st.inputValue) = true)
    (hty : st.isTyping = false) :
    (handleSendMessage hasOnMessage now st).state.messages =
        st.messages ++
          [⟨st.messages.length + 1, jsTrim st.inputValue, Sender.user, now⟩]
    ∧ (handleSendMessage hasOnMessage now st).state.inputValue = ""
    ∧ (handleSendMessage hasOnMessage now st).state.isTyping = true
    ∧ (handleSendMessage hasOnMessage now st).sinkCalls =
        (if hasOnMessage then [jsTrim st.inputValue] else [])
    ∧ (handleSendMessage hasOnMessage now st).scheduled =
        [⟨1000, st.messages.length + 2⟩]
    ∧ fireReplyTimer ⟨1000, st.messages.length + 2⟩ fireTime
          (handleSendMessage hasOnMessage now st).state =
        ⟨st.messages ++
           [⟨st.messages.length + 1, jsTrim st.inputValue, Sender.user, now⟩,
            ⟨st.messages.length + 2, botReplyText, Sender.bot, fireTime⟩],
         "", false⟩ := by
  unfold handleSendMessage fireReplyTimer
  simp [hne, hty]

/-- Witness for C5: sending `"Hello"` on a fresh engine with a sink. -/
theorem c5_send_success_witness :
    (handleSendMessage true 10 ⟨[], "Hello", false⟩).state.messages =
        [⟨1, jsTrim "Hello", Sender.user, 10⟩]
    ∧ (handleSendMessage true 10 ⟨[], "Hello", false⟩).state.inputValue = ""
    ∧ (handleSendMessage true 10 ⟨[], "Hello", false⟩).state.isTyping = true
    ∧ (handleSendMessage true 10 ⟨[], "Hello", false⟩).sinkCalls =
        (if true then [jsTrim "Hello"] else [])
    ∧ (handleSendMessage true 10 ⟨[], "Hello", false⟩).scheduled = [⟨1000, 2⟩]
    ∧ fireReplyTimer ⟨1000, 2⟩ 1010
          (handleSendMessage true 10 ⟨[], "Hello", false⟩).state =
        ⟨[⟨1, jsTrim "Hello", Sender.user, 10⟩,
          ⟨2, botReplyText, Sender.bot, 1010⟩], "", false⟩ := by
  exact c5_send_success true 10 1010 ⟨[], "Hello", false⟩ (by decide) rfl

/-! ## Engine teardown and the pending reply timer (C6)

The event-loop level view of one `VeeyaaChatbot` instance: its chat
state, the reply timers still pending in the browser, and whether the
component has been unmounted. -/

/-- An engine instance together with its pending browser timers. -/
structure EngineWorld where
  chat : ChatState
  pending : List ReplyTimer
  unmounted : Bool
  firedAfterUnmount : Nat
  deriving Repr, DecidableEq

/-- A `handleSendMessage` call at the world level: the scheduled reply
timer joins the browser's pending set. -/
def sendStep (hasOnMessage : Bool) (now : Nat) (w : EngineWorld) :
    EngineWorld :=
  let r := handleSendMessage hasOnMessage now w.chat
  { w with chat := r.state, pending := w.pending ++ r.scheduled }

/-- Embeds unmounting `VeeyaaChatbot`: none of its three effects
(lines 37-41, 44-48, 51-62) returns a cleanup function, the timeout id
produced at line 84 is never stored, and `clearTimeout` does not occur in
the file — so teardown cancels no pending timer. -/
def unmountEngine (w : EngineWorld) : EngineWorld :=
  { w with unmounted := true }

/-- The event loop runs the earliest pending reply timer once its delay
has elapsed, executing the callback of lines 85-92 whether or not its
owner has been torn down. -/
def elapseNextTimer (fireTime : Nat) (w : EngineWorld) : EngineWorld :=
  match w.pending with
  | [] => w
  | t :: rest =>
    { w with
      chat := fireReplyTimer t fireTime w.chat,
      pending := rest,
      firedAfterUnmount :=
        w.firedAfterUnmount + (if w.unmounted then 1 else 0) }

/-- Claim C6 evaluation (the code contradicts the claim).  Sending
`"Hello"` on a fresh engine and unmounting before the 1000 ms delay
elapses leaves the reply timer pending at teardown — nothing cancels
it — and when the delay elapses the callback executes after the owner's
teardown, appending the bot message and mutating `isTyping`. -/
theorem c6_reply_timer_not_cancelled :
    (unmountEngine (sendStep true 10 ⟨⟨[], "Hello", false⟩, [], false, 0⟩)).pending
        = [⟨1000, 2⟩]
    ∧ (elapseNextTimer 1010
          (unmountEngine
            (sendStep true 10 ⟨⟨[], "Hello", false⟩, [], false, 0⟩))).firedAfterUnmount
        = 1
    ∧ (elapseNextTimer 1010
          (unmountEngine
            (sendStep true 10 ⟨⟨[], "Hello", false⟩, [], false, 0⟩))).chat =
        ⟨[⟨1, "Hello", Sender.user, 10⟩,
          ⟨2, botReplyText, Sender.bot, 1010⟩], "", false⟩ := by
  decide

/-! ## Title watchdog (C9)

`TawkChatbot.jsx` lines 128-144: a 500 ms interval exists only while
title protection is enabled and the route is hidden; each firing reverts
the document title to the captured baseline when it differs from the
baseline and has the unread-notification shape; the effect cleanup
releases the interval. -/

/-- After an opening parenthesis: zero or more digits followed by a
closing parenthesis. -/
def digitsClose : List Char → Bool
  | [] => false
  | ')' :: _ => true
  | c :: rest => c.isDigit && digitsClose rest

/-- At least one digit followed (after further digits) by a closing
parenthesis. -/
def countBody : List Char → Bool
  | [] => false
  | c :: rest => c.isDigit && digitsClose rest

/-- Embeds a search for the regular expression `/\(\d+\)/` (line 133):
some opening parenthesis is followed by one or more digits and a closing
parenthesis. -/
def hasParenCount : List Char → Bool
  | [] => false
  | '(' :: rest => countBody rest || hasParenCount rest
  | _ :: rest => hasParenCount rest

/-- Embeds the unread-notification shape test of line 133. -/
def titleUnreadShape (t : String) : Bool :=
  jsIncludes t "new message" || hasParenCount t.data

/-- Embeds the revert condition of lines 132-133: the observed title
differs from the baseline and has the unread-notification shape. -/
def titleRevertTriggered (originalTitle observed : String) : Bool :=
  (observed != originalTitle) && titleUnreadShape observed

/-- Embeds one firing of the interval callback (lines 131-137). -/
def titleTick (originalTitle observed : String) : String :=
  if titleRevertTriggered originalTitle observed then originalTitle
  else observed

/-- Embeds lines 128-138: the watchdog interval exists only when title
protection is enabled and the route is hidden, and its baseline is the
document title captured at activation. -/
def titleEffectSetup (enableTitleProtection hidden : Bool)
    (docTitle : String) : Option String :=
  if enableTitleProtection && hidden then some docTitle else none

/-- One elapsed 500 ms polling interval: an active watchdog runs the
tick; no watchdog leaves the title untouched. -/
def intervalFire (watchdog : Option String) (observed : String) : String :=
  match watchdog with
  | some baseline => titleTick baseline observed
  | none => observed

/-- Embeds the effect cleanup of lines 140-144: `clearInterval` releases
whatever watchdog interval the effect created. -/
def titleEffectCleanup : Option String → Option String :=
  fun _ => none

/-- Claim C9 theorem.  With baseline `"Home"` and an active watchdog
(protection enabled, route hidden), any observed title that differs from
the baseline and has the unread-notification shape is reverted to
`"Home"` within a single polling interval; a title equal to the baseline
never triggers the revert; with protection disabled or the route shown no
interval exists, so no revert occurs; and after the effect cleanup
(route change or unmount) the interval is released and no revert
occurs. -/
theorem c9_title_watchdog (t b : String) (p h : Bool) :
    (t ≠ "Home" → titleUnreadShape t = true →
       intervalFire (titleEffectSetup true true "Home") t = "Home")
    ∧ titleRevertTriggered b b = false
    ∧ titleEffectSetup false p "Home" = none
    ∧ titleEffectSetup h false "Home" = none
    ∧ intervalFire none t = t
    ∧ intervalFire (titleEffectCleanup (titleEffectSetup true true "Home")) t
        = t := by
  refine ⟨?_, ?_, ?_, ?_, rfl, rfl⟩
  · intro hne hshape
    simp [titleEffectSetup, intervalFire, titleTick, titleRevertTriggered,
      hshape, bne_iff_ne, hne]
  · simp [titleRevertTriggered]
  · simp [titleEffectSetup]
  · simp [titleEffectSetup]

/-- Witness for C9: the title `"Home (2)"` is reverted to `"Home"` in one
interval. -/
theorem c9_title_watchdog_witness :
    intervalFire (titleEffectSetup true true "Home") "Home (2)" = "Home" :=
  (c9_title_watchdog "Home (2)" "Home" true true).1 (by decide) (by decide)

end Chatbot
